import Mathlib

/-!
Shallow embedding of the MoviePilot notification-forwarding plugins:

* `NapCatQQMsg` (src/plugins.v2/napcatqqmsg/__init__.py): synchronous
  forwarder with a time-windowed dedup cache.
* `LLOneBotMsg` (src/plugins.v2/onebotqqmsg/__init__.py): queued forwarder
  with a background worker, rate limiting, category filtering and a poison
  sentinel for shutdown.

Python dicts used as JSON payloads are modelled by the inductive `Json`;
`time.time()` by a `Nat` clock; the HTTP layer by oracles passed as
arguments.  Each theorem below settles one claim about the spec.
-/

/-- JSON values, enough to express the request payloads the plugins build. -/
inductive Json where
  | str (s : String)
  | num (n : Int)
  | arr (xs : List Json)
  | obj (fields : List (String × Json))

/-- A received HTTP response as the NapCat plugin observes it:
`ret.status_code` and `ret.text`. -/
structure HttpResponse where
  status : Nat
  text : String
deriving DecidableEq, Repr

/-- Truthiness of a `requests` response object: `bool(response)` is
`response.ok`, i.e. the status code is below 400. -/
def responseOk (r : HttpResponse) : Bool :=
  r.status < 400

/-- Outcome classification on the NapCat synchronous path. -/
inductive SendResult where
  | success (status : Nat)
  | rejected (status : Nat) (text : String)
  | networkFailure
deriving DecidableEq, Repr

/-- Lines 180-189 of napcatqqmsg/__init__.py:
`if ret and ret.status_code == 200: ... elif ret is not None: ... else: ...`
where `ret` is `None` exactly when no response was obtained. -/
def classifyNapCat (ret : Option HttpResponse) : SendResult :=
  match ret with
  | some r =>
      if responseOk r && r.status == 200 then .success r.status
      else .rejected r.status r.text
  | none => .networkFailure

/-- `d.get(k, dflt)` on a Python dict modelled as an association list. -/
def getD (d : List (String × String)) (k dflt : String) : String :=
  match d.find? (fun p => p.1 == k) with
  | some p => p.2
  | none => dflt

/-- Look a key up in the dedup cache (`fingerprint in dict` /
`dict[fingerprint]`). -/
def cacheLookup (c : List (String × Nat)) (k : String) : Option Nat :=
  (c.find? (fun p => p.1 == k)).map (fun p => p.2)

/-- Lines 140-145: drop every cache entry with
`current_time - ts > dedup_window_seconds`. -/
def sweepCache (c : List (String × Nat)) (now window : Nat) : List (String × Nat) :=
  c.filter (fun p => !(now - p.2 > window))

/-- Mutable attributes of a `NapCatQQMsg` instance that `send` reads or
writes.  `_forward_url` / `_user_id` are `None` or strings; only their
truthiness is tested, so the falsy values collapse to `""`. -/
structure NapCatState where
  enabled : Bool
  forward_url : String
  user_id : String
  last_forwarded : List (String × Nat)
  dedup_window : Nat
deriving DecidableEq, Repr

/-- The dedup window default: `_dedup_window_seconds: int = 10`. -/
def dedup_window_seconds : Nat := 10

/-- What one call of `NapCatQQMsg.send` did. -/
inductive NapCatStep where
  | skippedConfig
  | badEventData
  | skippedEmpty
  | skippedDuplicate
  | sent (payload : Json) (result : SendResult)

/-- The request body built at lines 162-170 of napcatqqmsg/__init__.py. -/
def napcatPayload (uid text : String) : Json :=
  .obj [("user_id", .str uid),
        ("message", .arr [.obj [("type", .str "text"),
                                ("data", .obj [("text", .str text)])]])]

/-- Line 161: `title + "\n\n" + text` if both truthy, else `title or text`. -/
def napcatFormat (title text : String) : String :=
  if title ≠ "" ∧ text ≠ "" then title ++ "\n\n" ++ text
  else if title ≠ "" then title else text

/-- Line 147: `message_fingerprint = f"{title}|{text}"` for the title and
text extracted from an event dict. -/
def fingerprintOf (d : List (String × String)) : String :=
  getD d "title" "" ++ "|" ++ getD d "text" ""

/-- Whether a `NapCatQQMsg.send` call reached the HTTP layer. -/
def isSentStep : NapCatStep → Bool
  | .sent _ _ => true
  | _ => false

/-- Whether a classified outcome is a success. -/
def isSuccess : SendResult → Bool
  | .success _ => true
  | _ => false

/-- The SimpleText payload the spec promises (§4.2, §8): recipient string
unchanged, message text `title + "\n\n" + body` when both are non-empty,
otherwise whichever of the two is non-empty.  Stated from the spec's words
to be compared with what `NapCatQQMsg.send` builds. -/
def specSimpleTextPayload (uid title text : String) : Json :=
  Json.obj
    [("user_id", Json.str uid),
     ("message", Json.arr
       [Json.obj
         [("type", Json.str "text"),
          ("data", Json.obj
            [("text", Json.str
              (if title ≠ "" ∧ text ≠ "" then title ++ "\n\n" ++ text
               else if title ≠ "" then title else text))])]])]

/-- `NapCatQQMsg.send` (lines 122-192).  `eventData` is `none` when
`event.event_data` is not a dict; `now` is `time.time()`; `http` is the
oracle for `RequestUtils(...).post_res`, returning `none` when no response
was obtained. -/
def NapCatQQMsg.send (st : NapCatState) (eventData : Option (List (String × String)))
    (now : Nat) (http : Json → Option HttpResponse) : NapCatStep × NapCatState :=
  if !st.enabled || st.forward_url == "" || st.user_id == "" then
    (.skippedConfig, st)
  else
    match eventData with
    | none => (.badEventData, st)
    | some d =>
        let title := getD d "title" ""
        let text := getD d "text" ""
        if title == "" && text == "" then (.skippedEmpty, st)
        else
          let swept := sweepCache st.last_forwarded now st.dedup_window
          let fp := title ++ "|" ++ text
          if (cacheLookup swept fp).isSome then
            (.skippedDuplicate, { st with last_forwarded := swept })
          else
            let cache := (fp, now) :: swept
            let payload := napcatPayload st.user_id (napcatFormat title text)
            (.sent payload (classifyNapCat (http payload)),
             { st with last_forwarded := cache })

/-! ## The LLOneBot queued plugin (onebotqqmsg/__init__.py) -/

/-- One queued message body as the worker reads it back:
`msg_body.get("type")` (a `NotificationType`, identified here by its
`.name` string, or `None`), `.get("title")` and `.get("text")` (`None`
and `""` are both falsy and collapse to `""`). -/
structure MsgBody where
  msgType : Option String
  title : String
  text : String
deriving DecidableEq, Repr

/-- Mutable attributes of an `LLOneBotMsg` instance.  `stopped` is
`__event.is_set()`; `queue` is `message_queue` in FIFO order with `none`
standing for the `None` poison sentinel. -/
structure OneBotState where
  enabled : Bool
  api_url : String
  token : String
  qq_user_id : String
  msgtypes : List String
  last_send_time : Nat
  stopped : Bool
  queue : List (Option MsgBody)
deriving DecidableEq, Repr

/-- The send-interval default: `send_interval = 5`. -/
def send_interval : Nat := 5

/-- `LLOneBotMsg.get_state` (lines 70-74):
`self._enabled and bool(self._api_url and self._token and self._qq_user_id)`. -/
def LLOneBotMsg.get_state (st : OneBotState) : Bool :=
  st.enabled && !(st.api_url == "" || st.token == "" || st.qq_user_id == "")

/-- What one call of `LLOneBotMsg.send` did. -/
inductive EnqueueStep where
  | skippedState
  | skippedEmpty
  | enqueued
deriving DecidableEq, Repr

/-- `LLOneBotMsg.send` (lines 202-218): the producer side.  `eventData` is
`none` when `event.event_data` is falsy.  Note no branch consults the
`stopped` flag. -/
def LLOneBotMsg.send (st : OneBotState) (eventData : Option MsgBody) :
    EnqueueStep × OneBotState :=
  match eventData with
  | none => (.skippedState, st)
  | some msg =>
      if !LLOneBotMsg.get_state st then (.skippedState, st)
      else if msg.title == "" && msg.text == "" then (.skippedEmpty, st)
      else (.enqueued, { st with queue := st.queue ++ [some msg] })

/-- `LLOneBotMsg.stop_service` (lines 289-296): set the stop event, then
put `None` on the queue to unblock the worker's `get()`. -/
def LLOneBotMsg.stop_service (st : OneBotState) : OneBotState :=
  { st with stopped := true, queue := st.queue ++ [none] }

/-- A response to the worker's `requests.post`, as far as the code could
observe it: the status code and the `retcode` field of the JSON body (or
`none` when the body has no such field). -/
structure OneBotResponse where
  status : Nat
  retcode : Option Int
deriving DecidableEq, Repr

/-- Lines 272-278: the attempt succeeds exactly when
`response.raise_for_status()` does not raise, i.e. the status code is not
4xx/5xx; `none` models a transport error or timeout raised by
`requests.post` itself.  The response body — in particular any `retcode`
field — is never read. -/
def oneBotSendOk (resp : Option OneBotResponse) : Bool :=
  match resp with
  | none => false
  | some r => !(400 ≤ r.status && r.status < 600)

/-- The configuration fields `process_queue` reads from `self` on each
iteration. -/
structure WorkerEnv where
  api_url : String
  token : String
  qq_user_id : String
  msgtypes : List String
  interval : Nat
deriving DecidableEq, Repr

/-- Line 241: `if msg_type and self._msgtypes and msg_type.name not in
self._msgtypes` — skip only when the item carries a type, the enabled set
is non-empty and the type is not a member. -/
def msgTypeFiltered (env : WorkerEnv) (msg : MsgBody) : Bool :=
  match msg.msgType with
  | some name => !env.msgtypes.isEmpty && !env.msgtypes.contains name
  | none => false

/-- Lines 248-251: `final_message = ("【"+title+"】\n" if title else "") +
(text if text else "")`. -/
def oneBotFormat (title text : String) : String :=
  (if title ≠ "" then "【" ++ title ++ "】\n" else "") ++ text

/-- Python `str.strip()` with no argument: remove leading and trailing
whitespace (whitespace modelled by `Char.isWhitespace`). -/
def pyStrip (s : String) : String :=
  ⟨((s.data.dropWhile Char.isWhitespace).reverse.dropWhile
      Char.isWhitespace).reverse⟩

/-- The digits of a decimal numeral; `none` on an empty list or any
non-digit character. -/
def parseDigits (cs : List Char) : Option Nat :=
  match cs with
  | [] => none
  | _ =>
      cs.foldl
        (fun acc c =>
          match acc with
          | none => none
          | some n => if c.isDigit then some (n * 10 + (c.toNat - 48)) else none)
        (some 0)

/-- Python `int(s)` as applied to `_qq_user_id`: parses an optionally
signed decimal string, raises `ValueError` (modelled by `none`) otherwise. -/
def pyInt (s : String) : Option Int :=
  match s.data with
  | '-' :: rest => (parseDigits rest).map (fun n => -(n : Int))
  | l => (parseDigits l).map (fun n => (n : Int))

/-- Lines 230-233: `time_since_last_send = current_time - last; if it is
below the interval, sleep the difference` — the clock after this sleep. -/
def rateSleep (i last clock : Nat) : Nat :=
  if clock - last < i then last + i else clock

/-- What one iteration of the worker loop body did.  Each constructor
carries the clock value after the rate-limit sleep. -/
inductive ItemStep where
  | skippedFiltered (t : Nat)
  | skippedEmpty (t : Nat)
  | attempted (start finish : Nat) (payload : Json)
      (headers : List (String × String)) (ok : Bool)
  | poisonCrash (t : Nat)
  | recipientCrash (t : Nat)

/-- One iteration of the `process_queue` loop body (lines 225-287) on a
dequeued item.  `last` is `self.last_send_time`, `clock` the value of
`time()` when `get()` returned, `resp` the HTTP oracle's answer and `dur`
how long the HTTP attempt takes.  Returns the step taken, the new
`last_send_time` and the clock at the end of the iteration.

* Rate limiting (lines 230-233) runs before any per-item branching.
* A `None` (poison) item crashes at `msg_body.get("type")`; the outer
  `except` catches it and sleeps `send_interval` (lines 284-287).
* A non-numeric `_qq_user_id` crashes at `int(...)` (line 267), caught the
  same way.
* `last_send_time` is set to `time()` after the `try/except` around the
  post (line 281), whether the attempt succeeded or failed. -/
def processItem (env : WorkerEnv) (last clock : Nat) (item : Option MsgBody)
    (resp : Option OneBotResponse) (dur : Nat) : ItemStep × Nat × Nat :=
  let t := rateSleep env.interval last clock
  match item with
  | none => (.poisonCrash t, last, t + env.interval)
  | some msg =>
      if msgTypeFiltered env msg then (.skippedFiltered t, last, t)
      else
        let final := oneBotFormat msg.title msg.text
        if pyStrip final == "" then (.skippedEmpty t, last, t)
        else
          match pyInt env.qq_user_id with
          | none => (.recipientCrash t, last, t + env.interval)
          | some uid =>
              let headers := [("Authorization", "Bearer " ++ env.token),
                              ("Content-Type", "application/json")]
              let payload := Json.obj [("user_id", .num uid), ("message", .str final)]
              (.attempted t (t + dur) payload headers (oneBotSendOk resp),
               t + dur, t + dur)

/-- One dequeued item together with its schedule: the HTTP oracle's
response, the wall time the attempt takes, and how long the worker sat
blocked in `get()` before this item was available. -/
structure QueueEntry where
  item : Option MsgBody
  resp : Option OneBotResponse
  dur : Nat
  wait : Nat

/-- The worker draining a sequence of queue entries: fold `processItem`
over the entries, threading `last_send_time` and the clock.  Returns the
steps taken and the final `(last_send_time, clock)`. -/
def processQueue (env : WorkerEnv) (last clock : Nat) :
    List QueueEntry → List ItemStep × Nat × Nat
  | [] => ([], last, clock)
  | e :: rest =>
      let r := processItem env last (clock + e.wait) e.item e.resp e.dur
      let rr := processQueue env r.2.1 r.2.2 rest
      (r.1 :: rr.1, rr.2)

/-- The dequeue skeleton of the worker loop: at the top of each iteration
check the stop flag (`while not self.__event.is_set()`), then block on
`queue.get()`.  Returns the items handed to the loop body, in order, and
the state left behind; `fuel` bounds the iterations so the function is
total. -/
def workerDequeues (fuel : Nat) (st : OneBotState) :
    List (Option MsgBody) × OneBotState :=
  match fuel with
  | 0 => ([], st)
  | Nat.succ n =>
      if st.stopped then ([], st)
      else
        match st.queue with
        | [] => ([], st)
        | q :: rest =>
            let r := workerDequeues n { st with queue := rest }
            (q :: r.1, r.2)

/-- The `(start, finish)` times of the HTTP attempts in a step trace. -/
def attemptTimes : List ItemStep → List (Nat × Nat)
  | [] => []
  | .attempted s f _ _ _ :: rest => (s, f) :: attemptTimes rest
  | .skippedFiltered _ :: rest => attemptTimes rest
  | .skippedEmpty _ :: rest => attemptTimes rest
  | .poisonCrash _ :: rest => attemptTimes rest
  | .recipientCrash _ :: rest => attemptTimes rest

/-- Every attempt starts at least `i` after the end of the previous
attempt (`prevEnd` for the first). -/
def gapsOK (i : Nat) : Nat → List (Nat × Nat) → Prop
  | _, [] => True
  | prevEnd, (s, f) :: rest => prevEnd + i ≤ s ∧ s ≤ f ∧ gapsOK i f rest

/-- The finish time of the last attempt in the list, or `l` if there is
none. -/
def finalLast (l : Nat) : List (Nat × Nat) → Nat
  | [] => l
  | (_, f) :: rest => finalLast f rest

/-- Whether a step performed an HTTP attempt. -/
def isAttempt : ItemStep → Bool
  | .attempted _ _ _ _ _ => true
  | _ => false

/-- A step with its success flag erased: what the worker did and when,
independent of how the remote answered. -/
def stepShape : ItemStep → ItemStep
  | .attempted s f p hd _ => .attempted s f p hd true
  | s => s

/-- Two entry lists describing the same queued items and timings, possibly
with different HTTP outcomes. -/
def sameSchedule : List QueueEntry → List QueueEntry → Prop :=
  List.Forall₂ (fun a b => a.item = b.item ∧ a.dur = b.dur ∧ a.wait = b.wait)

/-- A concrete worker configuration used to instantiate theorems below. -/
def envW : WorkerEnv :=
  { api_url := "http://h", token := "tk", qq_user_id := "7",
    msgtypes := [], interval := send_interval }

/-- A concrete burst of three immediately-available queue entries: one
successful attempt, one transport failure, one rejected status. -/
def entriesW : List QueueEntry :=
  [{ item := some { msgType := none, title := "A", text := "x" },
     resp := some { status := 200, retcode := some 0 }, dur := 1, wait := 0 },
   { item := some { msgType := none, title := "B", text := "y" },
     resp := none, dur := 2, wait := 0 },
   { item := some { msgType := none, title := "C", text := "z" },
     resp := some { status := 500, retcode := some 0 }, dur := 0, wait := 0 }]

/-! ## Helper lemmas -/

theorem sweepCache_cons_keep (fp : String) (ts now window : Nat)
    (c : List (String × Nat)) (h : now - ts ≤ window) :
    sweepCache ((fp, ts) :: c) now window = (fp, ts) :: sweepCache c now window := by
  simp [sweepCache, List.filter_cons, Nat.not_lt.mpr h]

theorem sweepCache_cons_drop (fp : String) (ts now window : Nat)
    (c : List (String × Nat)) (h : window < now - ts) :
    sweepCache ((fp, ts) :: c) now window = sweepCache c now window := by
  simp [sweepCache, List.filter_cons, h]

theorem cacheLookup_cons_self (fp : String) (ts : Nat) (c : List (String × Nat)) :
    cacheLookup ((fp, ts) :: c) fp = some ts := by
  simp [cacheLookup, List.find?]

theorem cacheLookup_sweep_none (c : List (String × Nat)) (fp : String)
    (now window : Nat) (h : cacheLookup c fp = none) :
    cacheLookup (sweepCache c now window) fp = none := by
  rw [cacheLookup, Option.map_eq_none', List.find?_eq_none] at h ⊢
  intro x hx
  exact h x (List.mem_of_mem_filter hx)

theorem napcat_send_fresh (st : NapCatState) (d : List (String × String)) (now : Nat)
    (http : Json → Option HttpResponse)
    (hen : st.enabled = true) (hurl : st.forward_url ≠ "") (huid : st.user_id ≠ "")
    (hne : ¬(getD d "title" "" = "" ∧ getD d "text" "" = ""))
    (hfresh : cacheLookup (sweepCache st.last_forwarded now st.dedup_window)
        (fingerprintOf d) = none) :
    NapCatQQMsg.send st (some d) now http =
      (.sent (napcatPayload st.user_id
           (napcatFormat (getD d "title" "") (getD d "text" "")))
         (classifyNapCat (http (napcatPayload st.user_id
           (napcatFormat (getD d "title" "") (getD d "text" ""))))),
       { st with last_forwarded :=
           (fingerprintOf d, now) :: sweepCache st.last_forwarded now st.dedup_window }) := by
  have h1 : (!st.enabled || st.forward_url == "" || st.user_id == "") = false := by
    simp [hen, hurl, huid]
  have h2 : (getD d "title" "" == "" && getD d "text" "" == "") = false := by
    rcases not_and_or.mp hne with h | h <;> simp [h]
  rw [fingerprintOf] at hfresh
  simp [NapCatQQMsg.send, h1, h2, hfresh, fingerprintOf, napcatPayload]

theorem napcat_send_dup (st : NapCatState) (d : List (String × String)) (now : Nat)
    (http : Json → Option HttpResponse)
    (hen : st.enabled = true) (hurl : st.forward_url ≠ "") (huid : st.user_id ≠ "")
    (hne : ¬(getD d "title" "" = "" ∧ getD d "text" "" = ""))
    (hdup : (cacheLookup (sweepCache st.last_forwarded now st.dedup_window)
        (fingerprintOf d)).isSome = true) :
    NapCatQQMsg.send st (some d) now http =
      (.skippedDuplicate,
       { st with last_forwarded := sweepCache st.last_forwarded now st.dedup_window }) := by
  have h1 : (!st.enabled || st.forward_url == "" || st.user_id == "") = false := by
    simp [hen, hurl, huid]
  have h2 : (getD d "title" "" == "" && getD d "text" "" == "") = false := by
    rcases not_and_or.mp hne with h | h <;> simp [h]
  rw [fingerprintOf] at hdup
  simp [NapCatQQMsg.send, h1, h2, hdup]

/-! ## Claims -/

/-- Claim C5: encoding for the SimpleText dialect yields payload
`{"user_id": <recipient as string>, "message": [{"type": "text", "data":
{"text": <formatted>}}]}` where the formatted text is `title + "\n\n" +
body` when both are non-empty and otherwise whichever of the two is
non-empty; a non-numeric recipient such as "abc" is accepted unchanged. -/
theorem claim_C5 (st : NapCatState) (d : List (String × String)) (now : Nat)
    (http : Json → Option HttpResponse)
    (hen : st.enabled = true) (hurl : st.forward_url ≠ "") (huid : st.user_id ≠ "")
    (hne : ¬(getD d "title" "" = "" ∧ getD d "text" "" = ""))
    (hfresh : cacheLookup (sweepCache st.last_forwarded now st.dedup_window)
        (fingerprintOf d) = none) :
    NapCatQQMsg.send st (some d) now http =
      (.sent (specSimpleTextPayload st.user_id (getD d "title" "") (getD d "text" ""))
         (classifyNapCat (http (specSimpleTextPayload st.user_id
            (getD d "title" "") (getD d "text" "")))),
       { st with last_forwarded :=
           (fingerprintOf d, now) :: sweepCache st.last_forwarded now st.dedup_window }) := by
  rw [napcat_send_fresh st d now http hen hurl huid hne hfresh]
  simp only [specSimpleTextPayload, napcatPayload, napcatFormat]

/-- Witness for C5 at recipient "abc" (non-numeric, accepted unchanged),
title "T", body "B". -/
theorem claim_C5_witness :
    NapCatQQMsg.send
        { enabled := true, forward_url := "u", user_id := "abc",
          last_forwarded := [], dedup_window := 10 }
        (some [("title", "T"), ("text", "B")]) 0 (fun _ => none) =
      (.sent (specSimpleTextPayload "abc" "T" "B") .networkFailure,
       { enabled := true, forward_url := "u", user_id := "abc",
         last_forwarded := [("T|B", 0)], dedup_window := 10 }) :=
  claim_C5
    { enabled := true, forward_url := "u", user_id := "abc",
      last_forwarded := [], dedup_window := 10 }
    [("title", "T"), ("text", "B")] 0 (fun _ => none)
    rfl (by decide) (by decide) (by decide) rfl

/-- Claim C10: on the SimpleText synchronous path a delivery is a success
iff a response was obtained with HTTP status exactly 200; every other
obtained status (including 201 and 204) is a rejected delivery; an absent
response is a network failure. -/
theorem claim_C10 :
    (∀ ret : Option HttpResponse,
        isSuccess (classifyNapCat ret) = true ↔ ∃ r, ret = some r ∧ r.status = 200) ∧
    (∀ r : HttpResponse, r.status ≠ 200 →
        classifyNapCat (some r) = .rejected r.status r.text) ∧
    classifyNapCat none = .networkFailure ∧
    (∀ t, classifyNapCat (some { status := 201, text := t }) = .rejected 201 t) ∧
    (∀ t, classifyNapCat (some { status := 204, text := t }) = .rejected 204 t) := by
  refine ⟨?_, ?_, rfl, ?_, ?_⟩
  · intro ret
    cases ret with
    | none => simp [classifyNapCat, isSuccess]
    | some r =>
        by_cases h : r.status = 200
        · simp [classifyNapCat, responseOk, h, isSuccess]
        · simp [classifyNapCat, responseOk, h, isSuccess]
  · intro r h
    simp [classifyNapCat, responseOk, h]
  · intro t; simp [classifyNapCat, responseOk]
  · intro t; simp [classifyNapCat, responseOk]

/-- Claim C7: an event whose title and body are both empty is discarded
before any further processing: the state (hence the dedup cache) is
unchanged, nothing reaches the HTTP layer (the result does not even depend
on the HTTP oracle), and on the queued plugin nothing is enqueued. -/
theorem claim_C7 (stN : NapCatState) (d : List (String × String)) (now : Nat)
    (http http2 : Json → Option HttpResponse) (stO : OneBotState) (msg : MsgBody)
    (hNt : getD d "title" "" = "") (hNx : getD d "text" "" = "")
    (hOt : msg.title = "") (hOx : msg.text = "") :
    ((NapCatQQMsg.send stN (some d) now http).2 = stN ∧
     isSentStep (NapCatQQMsg.send stN (some d) now http).1 = false ∧
     NapCatQQMsg.send stN (some d) now http = NapCatQQMsg.send stN (some d) now http2) ∧
    ((LLOneBotMsg.send stO (some msg)).2 = stO ∧
     (LLOneBotMsg.send stO (some msg)).1 ≠ .enqueued) := by
  have hN : ∀ h3 : Json → Option HttpResponse,
      NapCatQQMsg.send stN (some d) now h3 =
        (if !stN.enabled || stN.forward_url == "" || stN.user_id == ""
         then (.skippedConfig, stN) else (.skippedEmpty, stN)) := by
    intro h3
    simp [NapCatQQMsg.send, hNt, hNx]
  have hO : LLOneBotMsg.send stO (some msg) =
      (if !LLOneBotMsg.get_state stO
       then (.skippedState, stO) else (.skippedEmpty, stO)) := by
    simp [LLOneBotMsg.send, hOt, hOx]
  refine ⟨⟨?_, ?_, ?_⟩, ?_, ?_⟩
  · rw [hN http]; split <;> rfl
  · rw [hN http]; split <;> rfl
  · rw [hN http, hN http2]
  · rw [hO]; split <;> rfl
  · rw [hO]; split <;> simp

/-- Witness for C7: both-empty event on both plugins; nothing is enqueued. -/
theorem claim_C7_witness :
    (LLOneBotMsg.send
        { enabled := true, api_url := "http://h", token := "tk",
          qq_user_id := "7", msgtypes := [], last_send_time := 0,
          stopped := false, queue := [] }
        (some { msgType := none, title := "", text := "" })).1 ≠ .enqueued :=
  (claim_C7
    { enabled := true, forward_url := "u", user_id := "7",
      last_forwarded := [], dedup_window := 10 }
    [] 0 (fun _ => none) (fun _ => none)
    { enabled := true, api_url := "http://h", token := "tk",
      qq_user_id := "7", msgtypes := [], last_send_time := 0,
      stopped := false, queue := [] }
    { msgType := none, title := "", text := "" }
    rfl rfl rfl rfl).2.2


/-- Claim C1: for two notifications with identical (title, body) within the
dedup window, exactly one is forwarded to the HTTP layer: the first
sighting inserts the fingerprint with `seenAt = now` and is sent, a later
sighting within the window is skipped without updating the stored
timestamp, and a sighting after the window has elapsed (entry swept) is
forwarded again. -/
theorem claim_C1 (st : NapCatState) (d : List (String × String)) (t1 t2 t3 : Nat)
    (http1 http2 http3 : Json → Option HttpResponse)
    (hen : st.enabled = true) (hurl : st.forward_url ≠ "") (huid : st.user_id ≠ "")
    (hne : ¬(getD d "title" "" = "" ∧ getD d "text" "" = ""))
    (hfresh : cacheLookup (sweepCache st.last_forwarded t1 st.dedup_window)
        (fingerprintOf d) = none)
    (hwin : t2 - t1 ≤ st.dedup_window)
    (hafter : st.dedup_window < t3 - t1) :
    isSentStep (NapCatQQMsg.send st (some d) t1 http1).1 = true ∧
    cacheLookup (NapCatQQMsg.send st (some d) t1 http1).2.last_forwarded
      (fingerprintOf d) = some t1 ∧
    (NapCatQQMsg.send (NapCatQQMsg.send st (some d) t1 http1).2 (some d) t2 http2).1
      = .skippedDuplicate ∧
    cacheLookup (NapCatQQMsg.send (NapCatQQMsg.send st (some d) t1 http1).2
        (some d) t2 http2).2.last_forwarded (fingerprintOf d) = some t1 ∧
    isSentStep (NapCatQQMsg.send (NapCatQQMsg.send
        (NapCatQQMsg.send st (some d) t1 http1).2 (some d) t2 http2).2
        (some d) t3 http3).1 = true := by
  set w := st.dedup_window with hw
  set fp := fingerprintOf d with hfp
  set sw1 := sweepCache st.last_forwarded t1 w with hsw1
  set sw2 := sweepCache sw1 t2 w with hsw2
  have e1 := napcat_send_fresh st d t1 http1 hen hurl huid hne hfresh
  have hkeep : sweepCache ((fp, t1) :: sw1) t2 w = (fp, t1) :: sw2 :=
    sweepCache_cons_keep _ _ _ _ _ hwin
  have e2 : NapCatQQMsg.send (NapCatQQMsg.send st (some d) t1 http1).2 (some d) t2 http2
      = (.skippedDuplicate, { st with last_forwarded := (fp, t1) :: sw2 }) := by
    rw [e1]
    have hd : (cacheLookup (sweepCache ((fp, t1) :: sw1) t2 w) fp).isSome = true := by
      rw [hkeep, cacheLookup_cons_self]
      rfl
    have h := napcat_send_dup
      { st with last_forwarded := (fp, t1) :: sw1 } d t2 http2 hen hurl huid hne hd
    rw [h, hkeep]
  have hfresh3 : cacheLookup (sweepCache ((fp, t1) :: sw2) t3 w) fp = none := by
    rw [sweepCache_cons_drop _ _ _ _ _ hafter]
    exact cacheLookup_sweep_none _ _ _ _ (cacheLookup_sweep_none _ _ _ _ hfresh)
  have e3 := napcat_send_fresh
    { st with last_forwarded := (fp, t1) :: sw2 } d t3 http3 hen hurl huid hne hfresh3
  refine ⟨?_, ?_, ?_, ?_, ?_⟩
  · rw [e1]; rfl
  · rw [e1]; exact cacheLookup_cons_self _ _ _
  · rw [e2]
  · rw [e2]; exact cacheLookup_cons_self _ _ _
  · rw [e2, e3]; rfl

/-- Witness for C1: fingerprint "T|B", first sent at t=0, duplicate at t=5
(within the 10 s window), forwarded again at t=11. -/
theorem claim_C1_witness :
    (NapCatQQMsg.send (NapCatQQMsg.send
        { enabled := true, forward_url := "u", user_id := "7",
          last_forwarded := [], dedup_window := 10 }
        (some [("title", "T"), ("text", "B")]) 0 (fun _ => none)).2
      (some [("title", "T"), ("text", "B")]) 5 (fun _ => none)).1
      = .skippedDuplicate :=
  (claim_C1
    { enabled := true, forward_url := "u", user_id := "7",
      last_forwarded := [], dedup_window := 10 }
    [("title", "T"), ("text", "B")] 0 5 11
    (fun _ => none) (fun _ => none) (fun _ => none)
    rfl (by decide) (by decide) (by decide) rfl (by decide) (by decide)).2.2.1

theorem rateSleep_ge_interval (i last clock : Nat) (h : last ≤ clock) :
    last + i ≤ rateSleep i last clock := by
  rw [rateSleep]
  split <;> omega

theorem processItem_inv (env : WorkerEnv) (last clock : Nat) (item : Option MsgBody)
    (resp : Option OneBotResponse) (dur : Nat) (h : last ≤ clock) :
    (∃ s f p hd ok,
        processItem env last clock item resp dur = (.attempted s f p hd ok, f, f) ∧
        last + env.interval ≤ s ∧ s ≤ f) ∨
    (isAttempt (processItem env last clock item resp dur).1 = false ∧
     (processItem env last clock item resp dur).2.1 = last ∧
     last ≤ (processItem env last clock item resp dur).2.2) := by
  have hts := rateSleep_ge_interval env.interval last clock h
  cases item with
  | none =>
      right
      refine ⟨rfl, rfl, ?_⟩
      show last ≤ rateSleep env.interval last clock + env.interval
      omega
  | some msg =>
      by_cases hf : msgTypeFiltered env msg
      · right
        refine ⟨?_, ?_, ?_⟩ <;> (simp [processItem, hf, isAttempt]; try omega)
      · by_cases hs : pyStrip (oneBotFormat msg.title msg.text) == ""
        · right
          refine ⟨?_, ?_, ?_⟩ <;> (simp [processItem, hf, hs, isAttempt]; try omega)
        · cases hu : pyInt env.qq_user_id with
          | none =>
              right
              refine ⟨?_, ?_, ?_⟩ <;> (simp [processItem, hf, hs, hu, isAttempt]; try omega)
          | some uid =>
              left
              refine ⟨rateSleep env.interval last clock,
                rateSleep env.interval last clock + dur,
                Json.obj [("user_id", Json.num uid),
                          ("message", Json.str (oneBotFormat msg.title msg.text))],
                [("Authorization", "Bearer " ++ env.token),
                 ("Content-Type", "application/json")],
                oneBotSendOk resp, ?_, hts, by omega⟩
              simp [processItem, hf, hs, hu]

theorem attemptTimes_cons_of_not (st : ItemStep) (l : List ItemStep)
    (h : isAttempt st = false) :
    attemptTimes (st :: l) = attemptTimes l := by
  cases st <;> simp_all [attemptTimes, isAttempt]

theorem processQueue_spec (env : WorkerEnv) (entries : List QueueEntry) :
    ∀ last clock, last ≤ clock →
      gapsOK env.interval last (attemptTimes (processQueue env last clock entries).1) ∧
      (processQueue env last clock entries).2.1
        = finalLast last (attemptTimes (processQueue env last clock entries).1) ∧
      (processQueue env last clock entries).2.1
        ≤ (processQueue env last clock entries).2.2 := by
  induction entries with
  | nil =>
      intro last clock h
      exact ⟨trivial, rfl, h⟩
  | cons e rest ih =>
      intro last clock h
      have h2 : last ≤ clock + e.wait := le_trans h (Nat.le_add_right _ _)
      rcases processItem_inv env last (clock + e.wait) e.item e.resp e.dur h2 with
        ⟨s, f, p, hd, ok, heq, hgap, hsf⟩ | ⟨hna, hlast, hclk⟩
      · have hr := ih f f (le_refl f)
        simp only [processQueue, heq]
        exact ⟨⟨hgap, hsf, hr.1⟩, hr.2.1, hr.2.2⟩
      · have hr := ih last
          ((processItem env last (clock + e.wait) e.item e.resp e.dur).2.2) hclk
        simp only [processQueue]
        rw [hlast, attemptTimes_cons_of_not _ _ hna]
        exact hr

theorem processQueue_length (env : WorkerEnv) (entries : List QueueEntry) :
    ∀ last clock, (processQueue env last clock entries).1.length = entries.length := by
  induction entries with
  | nil => intro last clock; rfl
  | cons e rest ih =>
      intro last clock
      simp only [processQueue, List.length_cons, ih]

theorem processItem_shape_eq (env : WorkerEnv) (last clock : Nat)
    (item : Option MsgBody) (resp resp2 : Option OneBotResponse) (dur : Nat) :
    stepShape (processItem env last clock item resp dur).1
      = stepShape (processItem env last clock item resp2 dur).1 ∧
    (processItem env last clock item resp dur).2
      = (processItem env last clock item resp2 dur).2 := by
  cases item with
  | none => exact ⟨rfl, rfl⟩
  | some msg =>
      by_cases hf : msgTypeFiltered env msg
      · simp [processItem, hf]
      · by_cases hs : pyStrip (oneBotFormat msg.title msg.text) == ""
        · simp [processItem, hf, hs]
        · cases hu : pyInt env.qq_user_id with
          | none => simp [processItem, hf, hs, hu]
          | some uid => simp [processItem, hf, hs, hu, stepShape]

theorem processQueue_shape_eq (env : WorkerEnv) :
    ∀ e1 e2 : List QueueEntry, sameSchedule e1 e2 →
      ∀ last clock,
        (processQueue env last clock e1).1.map stepShape
          = (processQueue env last clock e2).1.map stepShape ∧
        (processQueue env last clock e1).2 = (processQueue env last clock e2).2 := by
  intro e1 e2 hs
  induction hs with
  | nil => intro last clock; exact ⟨rfl, rfl⟩
  | @cons a b l1 l2 hab htail ih =>
      intro last clock
      obtain ⟨hitem, hdur, hwait⟩ := hab
      have h1 := processItem_shape_eq env last (clock + a.wait) a.item a.resp b.resp a.dur
      rw [hitem, hdur, hwait] at h1
      simp only [processQueue, hwait]
      rw [hitem, hdur]
      refine ⟨?_, ?_⟩
      · simp only [List.map_cons]
        rw [h1.1, h1.2, (ih _ _).1]
      · rw [h1.2, (ih _ _).2]

/-- Claim C2: over any run of the dispatcher worker, no HTTP attempt starts
less than `interval` after the end of the previous attempt (the incoming
`last_send_time` counts as the previous end); `last_send_time` after the
run equals the finish time of the final attempt, updated after every
attempt whether it succeeded or failed (the run is quantified over every
oracle answer); and throttling drops nothing: exactly one step per entry. -/
theorem claim_C2 (env : WorkerEnv) (last clock : Nat) (entries : List QueueEntry)
    (h : last ≤ clock) :
    (processQueue env last clock entries).1.length = entries.length ∧
    gapsOK env.interval last (attemptTimes (processQueue env last clock entries).1) ∧
    (processQueue env last clock entries).2.1
      = finalLast last (attemptTimes (processQueue env last clock entries).1) := by
  have hs := processQueue_spec env entries last clock h
  exact ⟨processQueue_length env entries last clock, hs.1, hs.2.1⟩

/-- Witness for C2: the concrete three-entry burst under the default 5 s
interval. -/
theorem claim_C2_witness :
    (0 : Nat) ≤ 0 ∧
    ((processQueue envW 0 0 entriesW).1.length = entriesW.length ∧
     gapsOK envW.interval 0 (attemptTimes (processQueue envW 0 0 entriesW).1) ∧
     (processQueue envW 0 0 entriesW).2.1
       = finalLast 0 (attemptTimes (processQueue envW 0 0 entriesW).1)) :=
  ⟨Nat.le_refl 0, claim_C2 envW 0 0 entriesW (Nat.le_refl 0)⟩

/-- Claim C9: per-item failures (a failing HTTP answer, a recipient-parsing
error, the poison item's attribute error) never terminate the worker loop:
it takes exactly one step per queued entry whatever the oracle answers, and
which step each item takes — and when — is independent of the HTTP
outcomes of it and of every earlier item. -/
theorem claim_C9 :
    (∀ (env : WorkerEnv) (last clock : Nat) (entries : List QueueEntry),
        (processQueue env last clock entries).1.length = entries.length) ∧
    (∀ (env : WorkerEnv) (e1 e2 : List QueueEntry), sameSchedule e1 e2 →
        ∀ last clock,
          (processQueue env last clock e1).1.map stepShape
            = (processQueue env last clock e2).1.map stepShape) :=
  ⟨fun env last clock entries => processQueue_length env entries last clock,
   fun env e1 e2 hs last clock => (processQueue_shape_eq env e1 e2 hs last clock).1⟩

/-- Claim C8: a dequeued item whose declared category is not a member of
the non-empty enabled set is skipped: no HTTP attempt, `last_send_time`
unchanged, the clock advanced only by the rate-limit sleep.  An item whose
category is a member is forwarded (attempted), given the formatted message
is non-blank and the recipient id parses. -/
theorem claim_C8 (env : WorkerEnv) (last clock dur : Nat) (msg : MsgBody)
    (resp : Option OneBotResponse) (c : String)
    (hcat : msg.msgType = some c) (hne : env.msgtypes ≠ []) :
    (c ∉ env.msgtypes →
        processItem env last clock (some msg) resp dur
          = (.skippedFiltered (rateSleep env.interval last clock), last,
             rateSleep env.interval last clock)) ∧
    (c ∈ env.msgtypes →
     pyStrip (oneBotFormat msg.title msg.text) ≠ "" →
     ∀ uid : Int, pyInt env.qq_user_id = some uid →
        processItem env last clock (some msg) resp dur
          = (.attempted (rateSleep env.interval last clock)
               (rateSleep env.interval last clock + dur)
               (Json.obj [("user_id", Json.num uid),
                          ("message", Json.str (oneBotFormat msg.title msg.text))])
               [("Authorization", "Bearer " ++ env.token),
                ("Content-Type", "application/json")]
               (oneBotSendOk resp),
             rateSleep env.interval last clock + dur,
             rateSleep env.interval last clock + dur)) := by
  constructor
  · intro hnotmem
    have hf : msgTypeFiltered env msg = true := by
      simp [msgTypeFiltered, hcat, hne, hnotmem]
    simp [processItem, hf]
  · intro hmem hstrip uid huid
    have hf : msgTypeFiltered env msg = false := by
      simp [msgTypeFiltered, hcat, hmem]
    have hs : (pyStrip (oneBotFormat msg.title msg.text) == "") = false := by
      simpa using hstrip
    simp [processItem, hf, hs, huid]

/-- Witness for C8: enabled set {"download"}, item of category "system" is
skipped with `last_send_time` unchanged. -/
theorem claim_C8_witness :
    processItem
        { api_url := "http://h", token := "tk", qq_user_id := "7",
          msgtypes := ["download"], interval := 5 } 0 0
        (some { msgType := some "system", title := "T", text := "B" }) none 1
      = (.skippedFiltered 5, 0, 5) :=
  (claim_C8
    { api_url := "http://h", token := "tk", qq_user_id := "7",
      msgtypes := ["download"], interval := 5 } 0 0 1
    { msgType := some "system", title := "T", text := "B" } none "system"
    rfl (by decide)).1 (by decide)

/-- Counterexample to claim C3 as stated: after `stop_service`, `send` on a
still-enabled configuration is not a no-op — the message is appended to the
queue behind the poison sentinel. -/
theorem claim_C3_cex :
    (LLOneBotMsg.send
        (LLOneBotMsg.stop_service
          { enabled := true, api_url := "http://h", token := "tk",
            qq_user_id := "7", msgtypes := [], last_send_time := 0,
            stopped := false, queue := [] })
        (some { msgType := none, title := "T", text := "B" })).1 = .enqueued ∧
    (LLOneBotMsg.send
        (LLOneBotMsg.stop_service
          { enabled := true, api_url := "http://h", token := "tk",
            qq_user_id := "7", msgtypes := [], last_send_time := 0,
            stopped := false, queue := [] })
        (some { msgType := none, title := "T", text := "B" })).2.queue
      = [none, some { msgType := none, title := "T", text := "B" }] := by
  decide

/-- Claim C3 (amended): `stop_service` sets the stop flag and appends the
poison sentinel, so a worker observing the flag at the top of its loop
dequeues nothing further; but a subsequent `send` on the shut-down
dispatcher is NOT a no-op — it never consults the stop flag and, with the
configuration still enabled, appends the message to the queue, where it is
never processed. -/
theorem claim_C3_amended (st : OneBotState) (msg : MsgBody) (fuel : Nat)
    (hstate : LLOneBotMsg.get_state st = true)
    (hmsg : ¬(msg.title = "" ∧ msg.text = "")) :
    (LLOneBotMsg.stop_service st).stopped = true ∧
    (LLOneBotMsg.stop_service st).queue = st.queue ++ [none] ∧
    workerDequeues fuel (LLOneBotMsg.stop_service st)
      = ([], LLOneBotMsg.stop_service st) ∧
    (LLOneBotMsg.send (LLOneBotMsg.stop_service st) (some msg)).1 = .enqueued ∧
    (LLOneBotMsg.send (LLOneBotMsg.stop_service st) (some msg)).2.queue
      = st.queue ++ [none, some msg] := by
  have hstate2 : LLOneBotMsg.get_state (LLOneBotMsg.stop_service st) = true := hstate
  have hne : (msg.title == "" && msg.text == "") = false := by
    rcases not_and_or.mp hmsg with h | h <;> simp [h]
  refine ⟨rfl, rfl, ?_, ?_, ?_⟩
  · cases fuel with
    | zero => rfl
    | succ n => simp [workerDequeues, LLOneBotMsg.stop_service]
  · simp [LLOneBotMsg.send, hstate2, hne]
  · simp [LLOneBotMsg.send, hstate2, hne]
    simp [LLOneBotMsg.stop_service]

/-- Witness for C3 (amended): a worker given fuel for three iterations on
the concrete shut-down dispatcher dequeues nothing. -/
theorem claim_C3_witness :
    workerDequeues 3
        (LLOneBotMsg.stop_service
          { enabled := true, api_url := "http://h", token := "tk",
            qq_user_id := "7", msgtypes := [], last_send_time := 0,
            stopped := false, queue := [some { msgType := none, title := "Q1", text := "" },
                                        some { msgType := none, title := "Q2", text := "" }] })
      = ([], LLOneBotMsg.stop_service
          { enabled := true, api_url := "http://h", token := "tk",
            qq_user_id := "7", msgtypes := [], last_send_time := 0,
            stopped := false, queue := [some { msgType := none, title := "Q1", text := "" },
                                        some { msgType := none, title := "Q2", text := "" }] }) :=
  (claim_C3_amended
    { enabled := true, api_url := "http://h", token := "tk",
      qq_user_id := "7", msgtypes := [], last_send_time := 0,
      stopped := false, queue := [some { msgType := none, title := "Q1", text := "" },
                                  some { msgType := none, title := "Q2", text := "" }] }
    { msgType := none, title := "T", text := "B" } 3
    (by decide) (by decide)).2.2.1

/-- Counterexample to claim C4 as stated: with recipient "12345" and an
empty token, the queued OneBot path encodes title "T", body "B" as message
"【T】\nB" — not "T\n\nB" — and still attaches an Authorization header
("Bearer " followed by the empty token). -/
theorem claim_C4_cex :
    (processItem { api_url := "http://h", token := "", qq_user_id := "12345",
                   msgtypes := [], interval := 5 } 0 10
        (some { msgType := none, title := "T", text := "B" })
        (some { status := 200, retcode := none }) 3).1
      = .attempted 10 13
          (Json.obj [("user_id", Json.num 12345), ("message", Json.str "【T】\nB")])
          [("Authorization", "Bearer "), ("Content-Type", "application/json")]
          true ∧
    "【T】\nB" ≠ "T\n\nB" := ⟨rfl, by decide⟩

/-- Claim C4 (amended): encoding for the queued OneBot dialect with a
numeric recipient yields payload `{"user_id": <int recipient>, "message":
"【" + title + "】\n" + body}` (bracketed-title format, not
title+"\n\n"+body), and the header `Authorization: Bearer <token>` is
always attached — for every token, including the empty one. -/
theorem claim_C4_amended (env : WorkerEnv) (last clock dur : Nat) (msg : MsgBody)
    (resp : Option OneBotResponse) (uid : Int)
    (hfilter : msgTypeFiltered env msg = false)
    (htitle : msg.title ≠ "")
    (hstrip : pyStrip (oneBotFormat msg.title msg.text) ≠ "")
    (huid : pyInt env.qq_user_id = some uid) :
    (processItem env last clock (some msg) resp dur).1
      = .attempted (rateSleep env.interval last clock)
          (rateSleep env.interval last clock + dur)
          (Json.obj [("user_id", Json.num uid),
                     ("message", Json.str ("【" ++ msg.title ++ "】\n" ++ msg.text))])
          [("Authorization", "Bearer " ++ env.token),
           ("Content-Type", "application/json")]
          (oneBotSendOk resp) := by
  have hs : (pyStrip (oneBotFormat msg.title msg.text) == "") = false := by
    simpa using hstrip
  have hfmt : oneBotFormat msg.title msg.text
      = "【" ++ msg.title ++ "】\n" ++ msg.text := by
    simp [oneBotFormat, htitle]
  simp only [processItem, hfilter, Bool.false_eq_true, if_false, hs, huid]
  rw [hfmt]

/-- Witness for C4 (amended) at recipient "12345", token "XYZ", title "T",
body "B". -/
theorem claim_C4_witness :
    (processItem { api_url := "http://h", token := "XYZ", qq_user_id := "12345",
                   msgtypes := [], interval := 5 } 0 10
        (some { msgType := none, title := "T", text := "B" }) none 3).1
      = .attempted 10 13
          (Json.obj [("user_id", Json.num 12345), ("message", Json.str "【T】\nB")])
          [("Authorization", "Bearer XYZ"), ("Content-Type", "application/json")]
          false :=
  claim_C4_amended
    { api_url := "http://h", token := "XYZ", qq_user_id := "12345",
      msgtypes := [], interval := 5 } 0 10 3
    { msgType := none, title := "T", text := "B" } none 12345
    rfl (by decide) (by decide) rfl

/-- Counterexample to claim C6 as stated: the worker treats an HTTP 200
response with `retcode = 1` (and with no retcode at all) as a success; the
`retcode` field is never inspected, so "success iff retcode == 0" is false. -/
theorem claim_C6_cex :
    oneBotSendOk (some { status := 200, retcode := some 1 }) = true ∧
    oneBotSendOk (some { status := 200, retcode := none }) = true ∧
    ({ status := 200, retcode := some 1 } : OneBotResponse).retcode ≠ some 0 := by
  decide

/-- Claim C6 (amended): on the OneBot dialect path an obtained response is
a success iff its HTTP status is not 4xx/5xx (`raise_for_status`); the
`retcode` field of the body is never read, so the outcome is independent of
it — HTTP 200 with non-zero or missing retcode is also a success. -/
theorem claim_C6_amended :
    (∀ resp : Option OneBotResponse,
        oneBotSendOk resp = true
          ↔ ∃ r, resp = some r ∧ ¬(400 ≤ r.status ∧ r.status < 600)) ∧
    (∀ (s : Nat) (rc rc2 : Option Int),
        oneBotSendOk (some { status := s, retcode := rc })
          = oneBotSendOk (some { status := s, retcode := rc2 })) := by
  constructor
  · intro resp
    cases resp with
    | none => simp [oneBotSendOk]
    | some r =>
        simp [oneBotSendOk]
        omega
  · intro s rc rc2
    simp [oneBotSendOk]
